import Mathlib

/-!
Verification development for the report-generation pipeline of the
tab-backend repository (src/apps/reports/api.py, src/apps/reports/models.py,
src/apps/dania/models.py).

Modelling conventions:
* Django DecimalField(decimal_places=2) values (prices, totals) are integer
  cents: the decimal x.yz is the integer 100*x + yz.  Decimal sums and the
  products quantity * price_at_time are then exact integer arithmetic,
  exactly as the database computes them.
* Python's float(...) applied to such a Decimal is modelled exactly by
  pyFloat: round-to-nearest, ties-to-even, 53-bit binary floating point,
  returned as a dyadic rational (mantissa, exponent).  Overflow and
  subnormals are outside the modelled range (report sums are far below
  2^1000 and far above 2^-1000).
* The database rows, the chart, the PDF document and the stored Report are
  plain data; the PDF byte stream is abstracted to the structured content
  reportlab is given (heading, tables with their style commands, image).
* datetime.now() is an injected clock parameter.
-/

namespace TabBackend

/-- Calendar date (the value of a Django DateField / created_at__date). -/
structure Date where
  year : Nat
  month : Nat
  day : Nat
deriving DecidableEq, Repr

/-- Lexicographic date comparison, as SQL compares DATE values. -/
def Date.leB (a b : Date) : Bool :=
  decide (a.year < b.year) ||
    (a.year == b.year &&
      (decide (a.month < b.month) ||
        (a.month == b.month && decide (a.day ≤ b.day))))

/-- Strict date comparison. -/
def Date.ltB (a b : Date) : Bool := !(Date.leB b a)

/-- Timestamp (DateTimeField): a date plus a time of day. -/
structure DateTime where
  date : Date
  hour : Nat
  minute : Nat
  second : Nat
deriving DecidableEq, Repr

/-- apps/dania/models.py MenuItem (fields the reporting pipeline can reach). -/
structure MenuItem where
  id : Nat
  name : String
  price : Int
  category : String
  is_available : Bool
  is_visible : Bool
deriving DecidableEq, Repr

/-- apps/dania/models.py Order.  total_amount is in cents. -/
structure Order where
  id : Nat
  user_id : Nat
  table_number : Int
  status : String
  total_amount : Int
  estimated_time : Int
  created_at : DateTime
  completed_at : Option DateTime
  notes : String
deriving DecidableEq, Repr

/-- apps/dania/models.py OrderItem.  price_at_time is in cents. -/
structure OrderItem where
  id : Nat
  order_id : Nat
  menu_item_id : Nat
  quantity : Int
  price_at_time : Int
  notes : String
deriving DecidableEq, Repr

/-- The read-only database state the pipeline queries. -/
structure DB where
  orders : List Order
  orderItems : List OrderItem
  menuItems : List MenuItem
deriving Repr

/-! Generic, kernel-computable list machinery standing in for the ORM's
GROUP BY / ORDER BY.  Insertion sort is used because it is structurally
recursive, hence evaluable inside the kernel. -/

/-- Insert an element into a le-sorted list, keeping it sorted. -/
def insertSorted (le : α → α → Bool) (a : α) : List α → List α
  | [] => [a]
  | b :: l => if le a b then a :: b :: l else b :: insertSorted le a l

/-- Sort a list by the boolean comparison le. -/
def sortBy (le : α → α → Bool) : List α → List α
  | [] => []
  | a :: l => insertSorted le a (sortBy le l)

/-- Remove duplicates (keeping the last occurrence of each element),
the distinct grouping keys of a GROUP BY. -/
def dedupList [DecidableEq α] : List α → List α
  | [] => []
  | a :: l =>
    let r := dedupList l
    if a ∈ r then r else a :: r

/-! The binary64 model of Python's float(). -/

/-- A dyadic rational m * 2^k: the exact value of a binary64 float.
Nonzero values produced by pyFloat are normalised: 2^52 ≤ |m| < 2^53. -/
structure Dyadic where
  m : Int
  k : Int
deriving DecidableEq, Repr

/-- Largest e with d * 2^e ≤ n (n ≥ d > 0), fuel-driven. -/
def log2Down : Nat → Nat → Nat → Nat
  | 0, _, _ => 0
  | f + 1, n, d => if n < 2 * d then 0 else log2Down f n (2 * d) + 1

/-- Smallest j with d ≤ n * 2^j (0 < n < d), fuel-driven. -/
def log2Up : Nat → Nat → Nat → Nat
  | 0, _, _ => 0
  | f + 1, n, d => if d ≤ n then 0 else log2Up f (2 * n) d + 1

/-- Round num/den (den > 0) to the nearest integer, ties to even. -/
def rheDiv (num den : Int) : Int :=
  let q := Int.fdiv num den
  let r := num - q * den
  if 2 * r < den then q
  else if den < 2 * r then q + 1
  else if q % 2 = 0 then q else q + 1

/-- Mantissa extraction: round (n/d) * 2^(52-e) to the nearest integer
(ties to even) and renormalise the possible carry to 2^53. -/
def floatScaled (n d : Nat) (e : Int) : Dyadic :=
  let s : Int := 52 - e
  let m : Int :=
    if 0 ≤ s then rheDiv ((n : Int) * ((2 : Int) ^ s.toNat)) (d : Int)
    else rheDiv (n : Int) ((d : Int) * ((2 : Int) ^ (-s).toNat))
  if m = 2 ^ 53 then ⟨2 ^ 52, e - 51⟩ else ⟨m, e - 52⟩

/-- Python float(Decimal(n/d)): the nearest binary64 value to n/d
(normal range; ties to even).  d > 0. -/
def pyFloat (n : Int) (d : Nat) : Dyadic :=
  if n = 0 then ⟨0, 0⟩
  else
    let a := n.natAbs
    let e : Int :=
      if d ≤ a then (log2Down (a + d) a d : Int) else -(log2Up (a + d) a d : Int)
    let x := floatScaled a d e
    if n < 0 then ⟨-x.m, x.k⟩ else x

/-- Does the dyadic x equal the exact rational num/den (den > 0)? -/
def Dyadic.eqFrac (x : Dyadic) (num den : Int) : Bool :=
  if 0 ≤ x.k then x.m * 2 ^ x.k.toNat * den == num
  else x.m * den == num * 2 ^ (-x.k).toNat

/-! String formatting helpers (strftime patterns and Python format specs). -/

/-- Decimal digits of n, zero-padded on the left to width w. -/
def padNum (w n : Nat) : String :=
  let s := Nat.toDigits 10 n
  String.mk (List.replicate (w - s.length) ('0') ++ s)

/-- Insert a comma after every third character of a reversed digit list. -/
def groupRev : List Char → List Char
  | a :: b :: c :: d :: rest => a :: b :: c :: (',') :: groupRev (d :: rest)
  | l => l

/-- Render n with thousands separators. -/
def commaGroup (n : Nat) : String :=
  String.mk (groupRev (Nat.toDigits 10 n).reverse).reverse

/-- Round the exact value of the float x times 100 to the nearest integer,
ties to even: the cent amount that Python's .2f formatting prints. -/
def Dyadic.cents2 (x : Dyadic) : Int :=
  if 0 ≤ x.k then x.m * 100 * 2 ^ x.k.toNat
  else rheDiv (x.m * 100) (2 ^ (-x.k).toNat)

/-- Python format spec ",.2f" applied to the float x. -/
def formatComma2 (x : Dyadic) : String :=
  let c := x.cents2
  let sign := if c < 0 then "-" else ""
  let a := c.natAbs
  sign ++ commaGroup (a / 100) ++ "." ++ padNum 2 (a % 100)

/-- strftime %Y-%m-%d (also str() of a Python date). -/
def formatDate (d : Date) : String :=
  padNum 4 d.year ++ "-" ++ padNum 2 d.month ++ "-" ++ padNum 2 d.day

/-- strftime "%Y-%m-%d %H:%M". -/
def formatDateTimeMin (t : DateTime) : String :=
  formatDate t.date ++ " " ++ padNum 2 t.hour ++ ":" ++ padNum 2 t.minute

/-- strftime %Y%m%d%H%M%S (the filename timestamp). -/
def formatStamp (t : DateTime) : String :=
  padNum 4 t.date.year ++ padNum 2 t.date.month ++ padNum 2 t.date.day ++
    padNum 2 t.hour ++ padNum 2 t.minute ++ padNum 2 t.second

/-! The Aggregator: the three querysets of generate_report. -/

/-- created_at__date__gte=start AND created_at__date__lte=end. -/
def orderInRange (s e : Date) (o : Order) : Bool :=
  Date.leB s o.created_at.date && Date.leB o.created_at.date e

/-- Orders matching the date-range filter. -/
def ordersInRange (db : DB) (s e : Date) : List Order :=
  db.orders.filter (orderInRange s e)

/-- Sum of total_amount (cents) over the orders of calendar day d. -/
def sumTotalOn (os : List Order) (d : Date) : Int :=
  (os.filter (fun o => o.created_at.date == d)).foldr
    (fun o acc => o.total_amount + acc) 0

/-- The distinct TruncDate days of the matching orders, ascending. -/
def incomeDays (db : DB) (s e : Date) : List Date :=
  sortBy Date.leB (dedupList ((ordersInRange db s e).map (fun o => o.created_at.date)))

/-- The overall_income queryset: values('day').annotate(Sum('total_amount'))
.order_by('day'), with exact Decimal (integer-cent) values. -/
def aggOverallIncome (db : DB) (s e : Date) : List (Date × Int) :=
  (incomeDays db s e).map (fun d => (d, sumTotalOn (ordersInRange db s e) d))

/-- rows for overall_income: strftime label and float(value). -/
def overallIncomeRows (db : DB) (s e : Date) : List (String × Dyadic) :=
  (aggOverallIncome db s e).map (fun p => (formatDate p.1, pyFloat p.2 100))

/-- The menu_item__name join of an order item. -/
def menuName (db : DB) (it : OrderItem) : Option String :=
  (db.menuItems.find? (fun mi => mi.id == it.menu_item_id)).map MenuItem.name

/-- order__created_at__date range filter on an order item (FK join). -/
def itemInRange (db : DB) (s e : Date) (it : OrderItem) : Bool :=
  match db.orders.find? (fun o => o.id == it.order_id) with
  | some o => orderInRange s e o
  | none => false

/-- Order items whose parent order matches the date range. -/
def itemsInRange (db : DB) (s e : Date) : List OrderItem :=
  db.orderItems.filter (itemInRange db s e)

/-- The distinct menu_item__name grouping keys (inner join to MenuItem). -/
def dishNames (db : DB) (s e : Date) : List String :=
  dedupList ((itemsInRange db s e).filterMap (menuName db))

/-- The group of matching order items of one dish. -/
def dishItems (db : DB) (s e : Date) (name : String) : List OrderItem :=
  (itemsInRange db s e).filter (fun it => menuName db it == some name)

/-- Sum('quantity') for one dish. -/
def popularityValue (db : DB) (s e : Date) (name : String) : Int :=
  (dishItems db s e name).foldr (fun it acc => it.quantity + acc) 0

/-- Sum(F('quantity') * F('price_at_time')) for one dish, exact cents. -/
def incomeValue (db : DB) (s e : Date) (name : String) : Int :=
  (dishItems db s e name).foldr
    (fun it acc => it.quantity * it.price_at_time + acc) 0

/-- order_by('-value')[:10]. -/
def rankTop10 (l : List (String × Int)) : List (String × Int) :=
  (sortBy (fun a b => decide (b.2 ≤ a.2)) l).take 10

/-- The dish_popularity queryset with exact values. -/
def aggDishPopularity (db : DB) (s e : Date) : List (String × Int) :=
  rankTop10 ((dishNames db s e).map (fun n => (n, popularityValue db s e n)))

/-- The dish_income queryset with exact Decimal (integer-cent) values. -/
def aggDishIncome (db : DB) (s e : Date) : List (String × Int) :=
  rankTop10 ((dishNames db s e).map (fun n => (n, incomeValue db s e n)))

/-- rows for dish_popularity: name label and float(value). -/
def dishPopularityRows (db : DB) (s e : Date) : List (String × Dyadic) :=
  (aggDishPopularity db s e).map (fun p => (p.1, pyFloat p.2 1))

/-- rows for dish_income: name label and float(value). -/
def dishIncomeRows (db : DB) (s e : Date) : List (String × Dyadic) :=
  (aggDishIncome db s e).map (fun p => (p.1, pyFloat p.2 100))

/-! The Report Service: validated input, chart, document, store. -/

/-- The filter_by Literal of ReportGenerateInput. -/
inductive Metric
  | overall_income
  | dish_popularity
  | dish_income
deriving DecidableEq, Repr

/-- The validated request body (ninja Schema). -/
structure ReportGenerateInput where
  start_date : Date
  end_date : Date
  filter_by : Metric
deriving DecidableEq, Repr

/-- title_map of generate_report: title, column 1 label, column 2 label. -/
def title_map : Metric → String × String × String
  | .overall_income => ("Przychód dzienny", "Data", "Przychód [PLN]")
  | .dish_popularity => ("Popularność dań", "Danie", "Ilość zamówień")
  | .dish_income => ("Dochód po daniu", "Danie", "Przychód [PLN]")

/-- The wire name of a metric (value of data.filter_by). -/
def metricName : Metric → String
  | .overall_income => "overall_income"
  | .dish_popularity => "dish_popularity"
  | .dish_income => "dish_income"

/-- rows, as generate_report builds them for the selected metric. -/
def reportRows (db : DB) (inp : ReportGenerateInput) : List (String × Dyadic) :=
  match inp.filter_by with
  | .overall_income => overallIncomeRows db inp.start_date inp.end_date
  | .dish_popularity => dishPopularityRows db inp.start_date inp.end_date
  | .dish_income => dishIncomeRows db inp.start_date inp.end_date

/-- ax.plot versus ax.barh. -/
inductive ChartKind
  | line
  | barh
deriving DecidableEq, Repr

/-- The structured content of the rendered matplotlib figure. -/
structure Chart where
  kind : ChartKind
  labels : List String
  values : List Dyadic
  title : String
deriving DecidableEq, Repr

/-- Step 2 of generate_report: the chart over (labels, values). -/
def renderChart (rows : List (String × Dyadic)) (m : Metric) : Chart :=
  { kind := if m = .overall_income then .line else .barh
    labels := rows.map Prod.fst
    values := rows.map Prod.snd
    title := (title_map m).1 }

/-- One reportlab TableStyle command. -/
structure StyleCmd where
  cmd : String
  cellFrom : Int × Int
  cellTo : Int × Int
  arg : String
deriving DecidableEq, Repr

/-- TableStyle of the parameter-summary table. -/
def summaryTableStyle : List StyleCmd :=
  [⟨"BACKGROUND", (0, 0), (-1, 0), "lightgrey"⟩,
   ⟨"GRID", (0, 0), (-1, -1), "grey"⟩]

/-- TableStyle of the data table. -/
def dataTableStyle : List StyleCmd :=
  [⟨"BACKGROUND", (0, 0), (-1, 0), "#d3d3d3"⟩,
   ⟨"TEXTCOLOR", (0, 0), (-1, 0), "black"⟩,
   ⟨"ALIGN", (1, 1), (-1, -1), "RIGHT"⟩,
   ⟨"GRID", (0, 0), (-1, -1), "grey"⟩]

/-- The structured content handed to reportlab (step 3 of generate_report). -/
structure Document where
  heading : String
  summaryData : List (List String)
  summaryStyle : List StyleCmd
  tableData : List (List String)
  tableStyle : List StyleCmd
  chart : Chart
deriving DecidableEq, Repr

/-- Step 3 of generate_report: heading, summary table, data table, chart. -/
def composeDocument (title col1 col2 : String) (inp : ReportGenerateInput)
    (rows : List (String × Dyadic)) (chart : Chart) (now : DateTime) : Document :=
  { heading := "Raport: " ++ title
    summaryData :=
      [["Okres", formatDate inp.start_date ++ " – " ++ formatDate inp.end_date],
       ["Typ raportu", title],
       ["Wygenerowano", formatDateTimeMin now]]
    summaryStyle := summaryTableStyle
    tableData := [col1, col2] :: rows.map (fun r => [r.1, formatComma2 r.2])
    tableStyle := dataTableStyle
    chart := chart }

/-- apps/reports/models.py Report, as generate_report fills it. -/
structure Report where
  title : String
  start_date : Date
  end_date : Date
  filter_by : Metric
  generated_at : DateTime
  data : List (String × Dyadic)
  fileName : String
deriving DecidableEq, Repr

/-- The report filename: filter_by plus a second-granularity timestamp. -/
def reportFileName (m : Metric) (now : DateTime) : String :=
  metricName m ++ "_" ++ formatStamp now ++ ".pdf"

/-- request.build_absolute_uri(report.file.url) for upload_to='reports/'. -/
def fileUrl (baseUrl fname : String) : String :=
  baseUrl ++ "/media/reports/" ++ fname

/-- Everything one successful generate_report call produces. -/
structure GenerateResult where
  doc : Document
  report : Report
  file_url : String
deriving DecidableEq, Repr

/-- The full generate_report pipeline as a pure function of the database,
the validated input, the injected clock and the request base URL. -/
def generate_report (db : DB) (inp : ReportGenerateInput) (now : DateTime)
    (baseUrl : String) : GenerateResult :=
  let tm := title_map inp.filter_by
  let rows := reportRows db inp
  let chart := renderChart rows inp.filter_by
  let doc := composeDocument tm.1 tm.2.1 tm.2.2 inp rows chart now
  let fname := reportFileName inp.filter_by now
  { doc := doc
    report :=
      { title := fname, start_date := inp.start_date, end_date := inp.end_date
        filter_by := inp.filter_by, generated_at := now, data := rows
        fileName := fname }
    file_url := fileUrl baseUrl fname }

/-- The persistent state generate_report appends to: the Report table and
the media file storage. -/
structure Store where
  reports : List Report
  files : List (String × Document)
deriving DecidableEq, Repr

/-- Exception oracle: which of the non-persisting stages raises. -/
structure StageFailures where
  aggregateFails : Bool
  renderFails : Bool
  composeFails : Bool
deriving DecidableEq, Repr

/-- The run on which no stage raises. -/
def noStageFailures : StageFailures := ⟨false, false, false⟩

/-- Stage 1 (querysets and rows); an exception propagates as error. -/
def aggregateStage (failed : Bool) (db : DB) (inp : ReportGenerateInput) :
    Except String (List (String × Dyadic)) :=
  if failed then .error "aggregation raised" else .ok (reportRows db inp)

/-- Stage 2 (matplotlib); an exception propagates as error. -/
def renderStage (failed : Bool) (rows : List (String × Dyadic)) (m : Metric) :
    Except String Chart :=
  if failed then .error "chart rendering raised" else .ok (renderChart rows m)

/-- Stage 3 (reportlab doc.build); an exception propagates as error. -/
def composeStage (failed : Bool) (title col1 col2 : String)
    (inp : ReportGenerateInput) (rows : List (String × Dyadic)) (chart : Chart)
    (now : DateTime) : Except String Document :=
  if failed then .error "document composition raised"
  else .ok (composeDocument title col1 col2 inp rows chart now)

/-- Stage 4: report.file.save + report.save, the only writes of the view. -/
def storeStage (st : Store) (rp : Report) (doc : Document) (baseUrl : String) :
    String × Store :=
  (fileUrl baseUrl rp.fileName,
   ⟨st.reports ++ [rp], st.files ++ [(rp.fileName, doc)]⟩)

/-- generate_report with exception propagation: stages run in sequence and
an uncaught exception aborts the request before the persistence stage. -/
def runPipeline (fail : StageFailures) (db : DB) (inp : ReportGenerateInput)
    (now : DateTime) (baseUrl : String) (st : Store) :
    Except String String × Store :=
  match aggregateStage fail.aggregateFails db inp with
  | .error e => (.error e, st)
  | .ok rows =>
    match renderStage fail.renderFails rows inp.filter_by with
    | .error e => (.error e, st)
    | .ok chart =>
      let tm := title_map inp.filter_by
      match composeStage fail.composeFails tm.1 tm.2.1 tm.2.2 inp rows chart now with
      | .error e => (.error e, st)
      | .ok doc =>
        let fname := reportFileName inp.filter_by now
        let rp : Report :=
          { title := fname, start_date := inp.start_date, end_date := inp.end_date
            filter_by := inp.filter_by, generated_at := now, data := rows
            fileName := fname }
        let us := storeStage st rp doc baseUrl
        (.ok us.1, us.2)

/-- Report Store retrieval of the persisted metadata by its locator. -/
def retrieveReport (st : Store) (name : String) : Option Report :=
  st.reports.find? (fun r => r.fileName == name)

/-- Report Store retrieval of the persisted document by its locator. -/
def retrieveFile (st : Store) (name : String) : Option Document :=
  (st.files.find? (fun f => f.1 == name)).map Prod.snd

/-- Two orders that agree on every field except status and completed_at. -/
def SameButStatus (o1 o2 : Order) : Prop :=
  o1.id = o2.id ∧ o1.user_id = o2.user_id ∧ o1.table_number = o2.table_number ∧
    o1.total_amount = o2.total_amount ∧ o1.estimated_time = o2.estimated_time ∧
    o1.created_at = o2.created_at ∧ o1.notes = o2.notes

/-! Concrete data used by the scenario conjuncts, counterexamples and
witnesses. -/

/-- A completed order of the given id, day and total (cents). -/
def mkOrder (i : Nat) (d : Date) (amt : Int) : Order :=
  ⟨i, 1, 3, "completed", amt, 20, ⟨d, 12, 0, 0⟩, none, ""⟩

/-- Scenario database: two orders of 50.00 and 75.50 on 2024-01-05. -/
def exampleDB125 : DB :=
  ⟨[mkOrder 1 ⟨2024, 1, 5⟩ 5000, mkOrder 2 ⟨2024, 1, 5⟩ 7550], [], []⟩

/-- Counterexample database: one order of 10.10 on 2024-01-05. -/
def exampleDB010 : DB :=
  ⟨[mkOrder 1 ⟨2024, 1, 5⟩ 1010], [], []⟩

/-- Twelve menu items named Dish01 .. Dish12, price 10.00 each. -/
def exampleMenu12 : List MenuItem :=
  (List.range 12).map (fun i =>
    ⟨i + 1, "Dish" ++ padNum 2 (i + 1), 1000, "Main", true, true⟩)

/-- Scenario database: one in-range order with twelve order lines, dish
number i ordered with quantity i. -/
def exampleDB12 : DB :=
  ⟨[mkOrder 1 ⟨2024, 1, 10⟩ 10000],
   (List.range 12).map (fun i => ⟨i + 1, 1, i + 1, (i : Int) + 1, 1000, ""⟩),
   exampleMenu12⟩

/-- Counterexample database: three lines of dish Pizza, quantity 1,
price_at_time 10.10 each, on one in-range order. -/
def exampleDB3 : DB :=
  ⟨[mkOrder 1 ⟨2024, 1, 10⟩ 3030],
   [⟨1, 1, 7, 1, 1010, ""⟩, ⟨2, 1, 7, 1, 1010, ""⟩, ⟨3, 1, 7, 1, 1010, ""⟩],
   [⟨7, "Pizza", 1010, "Main", true, true⟩]⟩

/-- An example range covering January 2024. -/
def exampleInput (m : Metric) : ReportGenerateInput :=
  ⟨⟨2024, 1, 1⟩, ⟨2024, 1, 31⟩, m⟩

/-- An order dated before the example range, with a fresh id. -/
def exampleOutOrder : Order :=
  ⟨99, 1, 3, "completed", 400, 20, ⟨⟨2023, 12, 31⟩, 10, 0, 0⟩, none, ""⟩

/-- exampleDB125 with the status and completed_at fields changed: the two
orders are still active rather than completed. -/
def exampleDB125pending : DB :=
  ⟨[⟨1, 1, 3, "pending", 5000, 20, ⟨⟨2024, 1, 5⟩, 12, 0, 0⟩,
      some ⟨⟨2024, 1, 6⟩, 1, 2, 3⟩, ""⟩,
    ⟨2, 1, 3, "cancelled", 7550, 20, ⟨⟨2024, 1, 5⟩, 12, 0, 0⟩, none, ""⟩],
   [], []⟩

/-- An example injected clock value. -/
def exampleNow : DateTime := ⟨⟨2024, 2, 1⟩, 9, 30, 15⟩

/-- A second example clock value, distinct from exampleNow. -/
def exampleNow2 : DateTime := ⟨⟨2024, 3, 2⟩, 18, 45, 59⟩

/-! Helper lemmas: insertion sort, dedupList, date order and find?. -/

theorem mem_insertSorted (le : α → α → Bool) (a x : α) (l : List α) :
    x ∈ insertSorted le a l ↔ x = a ∨ x ∈ l := by
  induction l with
  | nil => simp [insertSorted]
  | cons b t ih =>
    by_cases h : le a b = true
    · simp [insertSorted, h]
    · simp only [insertSorted, if_neg h, List.mem_cons, ih]
      tauto

theorem perm_insertSorted (le : α → α → Bool) (a : α) (l : List α) :
    (insertSorted le a l).Perm (a :: l) := by
  induction l with
  | nil => simp [insertSorted]
  | cons b t ih =>
    by_cases h : le a b = true
    · simp [insertSorted, h]
    · simp only [insertSorted, if_neg h]
      exact (ih.cons b).trans (List.Perm.swap a b t)

theorem perm_sortBy (le : α → α → Bool) (l : List α) : (sortBy le l).Perm l := by
  induction l with
  | nil => simp [sortBy]
  | cons a t ih =>
    exact (perm_insertSorted le a (sortBy le t)).trans (ih.cons a)

theorem pairwise_insertSorted (le : α → α → Bool)
    (htrans : ∀ a b c, le a b = true → le b c = true → le a c = true)
    (htotal : ∀ a b, le a b = true ∨ le b a = true)
    (a : α) {l : List α} (h : l.Pairwise (fun x y => le x y = true)) :
    (insertSorted le a l).Pairwise (fun x y => le x y = true) := by
  induction l with
  | nil => simp [insertSorted]
  | cons b t ih =>
    rcases List.pairwise_cons.1 h with ⟨hb, ht⟩
    by_cases hab : le a b = true
    · simp only [insertSorted, if_pos hab]
      refine List.pairwise_cons.2 ⟨?_, h⟩
      intro x hx
      rcases List.mem_cons.1 hx with rfl | hx
      · exact hab
      · exact htrans a b x hab (hb x hx)
    · have hba : le b a = true := (htotal a b).resolve_left hab
      simp only [insertSorted, if_neg hab]
      refine List.pairwise_cons.2 ⟨?_, ih ht⟩
      intro x hx
      rcases (mem_insertSorted le a x t).1 hx with rfl | hx
      · exact hba
      · exact hb x hx

theorem pairwise_sortBy (le : α → α → Bool)
    (htrans : ∀ a b c, le a b = true → le b c = true → le a c = true)
    (htotal : ∀ a b, le a b = true ∨ le b a = true) (l : List α) :
    (sortBy le l).Pairwise (fun x y => le x y = true) := by
  induction l with
  | nil => simp [sortBy]
  | cons a t ih => exact pairwise_insertSorted le htrans htotal a ih

theorem dedupList_cons [DecidableEq α] (b : α) (t : List α) :
    dedupList (b :: t) =
      if b ∈ dedupList t then dedupList t else b :: dedupList t := rfl

theorem mem_dedupList [DecidableEq α] {a : α} {l : List α} :
    a ∈ dedupList l ↔ a ∈ l := by
  induction l with
  | nil => simp [dedupList]
  | cons b t ih =>
    rw [dedupList_cons]
    by_cases h : b ∈ dedupList t
    · rw [if_pos h, ih, List.mem_cons]
      constructor
      · exact Or.inr
      · rintro (rfl | hm)
        · exact ih.1 h
        · exact hm
    · rw [if_neg h, List.mem_cons, List.mem_cons, ih]

theorem nodup_dedupList [DecidableEq α] (l : List α) : (dedupList l).Nodup := by
  induction l with
  | nil => simp [dedupList]
  | cons b t ih =>
    rw [dedupList_cons]
    by_cases h : b ∈ dedupList t
    · rwa [if_pos h]
    · rw [if_neg h]
      exact List.nodup_cons.2 ⟨h, ih⟩

theorem dateLeB_iff (a b : Date) :
    Date.leB a b = true ↔
      (a.year < b.year ∨
        (a.year = b.year ∧
          (a.month < b.month ∨ (a.month = b.month ∧ a.day ≤ b.day)))) := by
  simp [Date.leB, Bool.or_eq_true, Bool.and_eq_true, decide_eq_true_iff, beq_iff_eq]

theorem dateLeB_refl (a : Date) : Date.leB a a = true := by
  simp [dateLeB_iff]

theorem dateLeB_trans {a b c : Date} (h1 : Date.leB a b = true)
    (h2 : Date.leB b c = true) : Date.leB a c = true := by
  rw [dateLeB_iff] at h1 h2 ⊢
  omega

theorem dateLeB_total (a b : Date) :
    Date.leB a b = true ∨ Date.leB b a = true := by
  rw [dateLeB_iff, dateLeB_iff]
  omega

theorem dateLeB_antisymm {a b : Date} (h1 : Date.leB a b = true)
    (h2 : Date.leB b a = true) : a = b := by
  rw [dateLeB_iff] at h1 h2
  obtain ⟨ay, am, ad⟩ := a
  obtain ⟨cy, cm, cd⟩ := b
  simp only [Date.mk.injEq]
  simp only at h1 h2
  omega

theorem dateLtB_iff (a b : Date) :
    Date.ltB a b = true ↔ ¬ Date.leB b a = true := by
  simp [Date.ltB]

theorem dateLtB_of_leB_ne {a b : Date} (h1 : Date.leB a b = true) (h2 : a ≠ b) :
    Date.ltB a b = true := by
  rw [dateLtB_iff]
  intro hba
  exact h2 (dateLeB_antisymm h1 hba)

theorem rankTop10_length (l : List (String × Int)) : (rankTop10 l).length ≤ 10 := by
  simp only [rankTop10, List.length_take]
  omega

theorem rankTop10_subset {p : String × Int} {l : List (String × Int)}
    (h : p ∈ rankTop10 l) : p ∈ l := by
  have h2 : p ∈ sortBy (fun a b => decide (b.2 ≤ a.2)) l :=
    (List.take_sublist 10 _).subset h
  exact (perm_sortBy _ l).subset h2

theorem rankTop10_pairwise (l : List (String × Int)) :
    (rankTop10 l).Pairwise (fun p q => q.2 ≤ p.2) := by
  have hs := pairwise_sortBy (fun a b : String × Int => decide (b.2 ≤ a.2))
    (fun a b c h1 h2 => by
      simp only [decide_eq_true_iff] at h1 h2 ⊢
      omega)
    (fun a b => by
      rcases le_total b.2 a.2 with h | h
      · exact Or.inl (by simpa using h)
      · exact Or.inr (by simpa using h)) l
  have ht := List.Pairwise.sublist (List.take_sublist 10 _) hs
  exact ht.imp fun h => by simpa using h

theorem rankTop10_fst_nodup {l : List (String × Int)}
    (h : (l.map Prod.fst).Nodup) : ((rankTop10 l).map Prod.fst).Nodup := by
  have hperm := (perm_sortBy (fun a b : String × Int => decide (b.2 ≤ a.2)) l).map Prod.fst
  have h2 : ((sortBy (fun a b : String × Int => decide (b.2 ≤ a.2)) l).map Prod.fst).Nodup :=
    (hperm.nodup_iff).2 h
  exact List.Nodup.sublist ((List.take_sublist 10 _).map Prod.fst) h2

theorem keyedPairs_fst (ns : List String) (v : String → Int) :
    ((ns.map (fun n => (n, v n))).map Prod.fst) = ns := by
  rw [List.map_map]
  exact List.map_id ns

theorem mem_incomeDays {db : DB} {s e : Date} {d : Date} :
    d ∈ incomeDays db s e ↔ ∃ o ∈ ordersInRange db s e, o.created_at.date = d := by
  unfold incomeDays
  rw [List.Perm.mem_iff (perm_sortBy _ _), mem_dedupList]
  simp [List.mem_map]

theorem pairwise_incomeDays (db : DB) (s e : Date) :
    (incomeDays db s e).Pairwise (fun a b => Date.ltB a b = true) := by
  have h1 : (incomeDays db s e).Pairwise (fun a b => Date.leB a b = true) :=
    pairwise_sortBy Date.leB (fun a b c => dateLeB_trans) dateLeB_total _
  have h2 : (incomeDays db s e).Nodup := by
    unfold incomeDays
    exact ((perm_sortBy _ _).nodup_iff).2 (nodup_dedupList _)
  exact (h1.and h2).imp fun h => dateLtB_of_leB_ne h.1 h.2

theorem find?_append_right {p : α → Bool} {l1 l2 : List α}
    (h : ∀ a ∈ l1, p a = false) :
    List.find? p (l1 ++ l2) = List.find? p l2 := by
  induction l1 with
  | nil => rfl
  | cons a t ih =>
    have ha : p a = false := h a (List.mem_cons_self a t)
    rw [List.cons_append, List.find?_cons_of_neg]
    · exact ih fun x hx => h x (List.mem_cons_of_mem a hx)
    · simp [ha]

theorem sameButStatus_inRange {o1 o2 : Order} (h : SameButStatus o1 o2)
    (s e : Date) : orderInRange s e o1 = orderInRange s e o2 := by
  unfold orderInRange
  rw [h.2.2.2.2.2.1]

theorem forall2_filter_range {l1 l2 : List Order} (s e : Date)
    (h : List.Forall₂ SameButStatus l1 l2) :
    List.Forall₂ SameButStatus (l1.filter (orderInRange s e))
      (l2.filter (orderInRange s e)) := by
  induction h with
  | nil => exact List.Forall₂.nil
  | @cons a b t1 t2 h12 htail ih =>
    rw [List.filter_cons, List.filter_cons, sameButStatus_inRange h12 s e]
    by_cases hc : orderInRange s e b = true
    · rw [if_pos hc, if_pos hc]
      exact List.Forall₂.cons h12 ih
    · rw [if_neg hc, if_neg hc]
      exact ih

theorem forall2_map_date {l1 l2 : List Order}
    (h : List.Forall₂ SameButStatus l1 l2) :
    l1.map (fun o => o.created_at.date) = l2.map (fun o => o.created_at.date) := by
  induction h with
  | nil => rfl
  | @cons a b t1 t2 h12 htail ih =>
    simp only [List.map_cons, ih, h12.2.2.2.2.2.1]

theorem forall2_sumTotalOn {l1 l2 : List Order} (d : Date)
    (h : List.Forall₂ SameButStatus l1 l2) : sumTotalOn l1 d = sumTotalOn l2 d := by
  induction h with
  | nil => rfl
  | @cons a b t1 t2 h12 htail ih =>
    unfold sumTotalOn at ih ⊢
    rw [List.filter_cons, List.filter_cons]
    have hd : a.created_at = b.created_at := h12.2.2.2.2.2.1
    rw [hd]
    by_cases hc : (b.created_at.date == d) = true
    · rw [if_pos hc, if_pos hc]
      show a.total_amount + _ = b.total_amount + _
      rw [h12.2.2.2.1, ih]
    · rw [if_neg hc, if_neg hc]
      exact ih

theorem forall2_findRange {l1 l2 : List Order} (s e : Date)
    (h : List.Forall₂ SameButStatus l1 l2) (n : Nat) :
    (match l1.find? (fun o => o.id == n) with
     | some o => orderInRange s e o
     | none => false) =
    (match l2.find? (fun o => o.id == n) with
     | some o => orderInRange s e o
     | none => false) := by
  induction h with
  | nil => rfl
  | @cons a b t1 t2 h12 htail ih =>
    by_cases hc : (a.id == n) = true
    · have hc2 : (b.id == n) = true := by rw [← h12.1]; exact hc
      have h1 : List.find? (fun o => o.id == n) (a :: t1) = some a :=
        List.find?_cons_of_pos _ hc
      have h2 : List.find? (fun o => o.id == n) (b :: t2) = some b :=
        List.find?_cons_of_pos _ hc2
      rw [h1, h2]
      exact sameButStatus_inRange h12 s e
    · have hc2 : ¬ (b.id == n) = true := by rw [← h12.1]; exact hc
      have h1 : List.find? (fun o => o.id == n) (a :: t1) =
          List.find? (fun o => o.id == n) t1 := List.find?_cons_of_neg _ hc
      have h2 : List.find? (fun o => o.id == n) (b :: t2) =
          List.find? (fun o => o.id == n) t2 := List.find?_cons_of_neg _ hc2
      rw [h1, h2]
      exact ih

/-! The claim theorems. -/

/-- C1 (amended): for overall_income the aggregation groups the Orders whose
created_at date lies in the inclusive range by calendar day; each queryset
point carries the exact decimal sum of total_amount over that day, the series
is strictly ascending by day and every label is the day formatted YYYY-MM-DD;
the emitted row value is the binary double float() of that exact sum (equal to
the sum whenever it is representable), so two orders of 50.00 and 75.50 on one
day yield the single point 2024-01-05 with value exactly 125.50. -/
theorem C1_overall_income_by_day (db : DB) (s e : Date) :
    (aggOverallIncome db s e).Pairwise (fun p q => Date.ltB p.1 q.1 = true) ∧
    (∀ p ∈ aggOverallIncome db s e,
      p.2 = sumTotalOn (ordersInRange db s e) p.1 ∧
      (Date.leB s p.1 && Date.leB p.1 e) = true ∧
      ∃ o ∈ db.orders, orderInRange s e o = true ∧ o.created_at.date = p.1) ∧
    (∀ o ∈ db.orders, orderInRange s e o = true →
      ∃ p ∈ aggOverallIncome db s e, p.1 = o.created_at.date) ∧
    overallIncomeRows db s e =
      (aggOverallIncome db s e).map (fun p => (formatDate p.1, pyFloat p.2 100)) ∧
    overallIncomeRows exampleDB125 ⟨2024, 1, 1⟩ ⟨2024, 1, 31⟩ =
      [("2024-01-05", pyFloat 12550 100)] ∧
    (pyFloat 12550 100).eqFrac 12550 100 = true := by
  refine ⟨?_, ?_, ?_, rfl, by decide, by decide⟩
  · unfold aggOverallIncome
    rw [List.pairwise_map]
    exact pairwise_incomeDays db s e
  · intro p hp
    obtain ⟨d, hd, rfl⟩ := List.mem_map.1 hp
    obtain ⟨o, ho, hod⟩ := mem_incomeDays.1 hd
    have hmem := List.mem_filter.1 ho
    refine ⟨rfl, ?_, o, hmem.1, hmem.2, hod⟩
    have hr := hmem.2
    unfold orderInRange at hr
    rw [hod] at hr
    exact hr
  · intro o ho hr
    have hos : o ∈ ordersInRange db s e := List.mem_filter.2 ⟨ho, hr⟩
    have hd : o.created_at.date ∈ incomeDays db s e := mem_incomeDays.2 ⟨o, hos, rfl⟩
    exact ⟨(o.created_at.date, sumTotalOn (ordersInRange db s e) o.created_at.date),
      List.mem_map.2 ⟨o.created_at.date, hd, rfl⟩, rfl⟩

/-- C1 counterexample: with the single in-range order of total_amount 10.10,
the day's exact sum is 10.10 but the emitted series value, float() of the
Decimal sum, is not equal to 10.10, so the value of the point is not the sum
of total_amount for that day. -/
theorem C1_counterexample :
    aggOverallIncome exampleDB010 ⟨2024, 1, 1⟩ ⟨2024, 1, 31⟩ =
      [(⟨2024, 1, 5⟩, 1010)] ∧
    (overallIncomeRows exampleDB010 ⟨2024, 1, 1⟩ ⟨2024, 1, 31⟩).map
      (fun p => (p.1, p.2.eqFrac 1010 100)) = [("2024-01-05", false)] := by
  decide

/-- C2: both ranked metrics group matching order lines by menu-item name,
keep only the top 10 by value descending, so the resulting Series has unique
labels and length at most 10; with 12 distinct dishes of quantities 1..12 the
popularity Series has exactly 10 entries descending by summed quantity. -/
theorem C2_ranked_metrics_top10 (db : DB) (s e : Date) :
    ((dishPopularityRows db s e).map Prod.fst).Nodup ∧
    ((dishIncomeRows db s e).map Prod.fst).Nodup ∧
    (dishPopularityRows db s e).length ≤ 10 ∧
    (dishIncomeRows db s e).length ≤ 10 ∧
    (aggDishPopularity db s e).Pairwise (fun p q => q.2 ≤ p.2) ∧
    (aggDishIncome db s e).Pairwise (fun p q => q.2 ≤ p.2) ∧
    (∀ p ∈ aggDishPopularity db s e, p.2 = popularityValue db s e p.1) ∧
    dishPopularityRows db s e =
      (aggDishPopularity db s e).map (fun p => (p.1, pyFloat p.2 1)) ∧
    aggDishPopularity exampleDB12 ⟨2024, 1, 1⟩ ⟨2024, 1, 31⟩ =
      [("Dish12", 12), ("Dish11", 11), ("Dish10", 10), ("Dish09", 9),
       ("Dish08", 8), ("Dish07", 7), ("Dish06", 6), ("Dish05", 5),
       ("Dish04", 4), ("Dish03", 3)] ∧
    (dishPopularityRows exampleDB12 ⟨2024, 1, 1⟩ ⟨2024, 1, 31⟩).length = 10 := by
  have hpopfst : (dishPopularityRows db s e).map Prod.fst =
      (aggDishPopularity db s e).map Prod.fst := by
    unfold dishPopularityRows
    rw [List.map_map]
    rfl
  have hincfst : (dishIncomeRows db s e).map Prod.fst =
      (aggDishIncome db s e).map Prod.fst := by
    unfold dishIncomeRows
    rw [List.map_map]
    rfl
  have hpopnd : ((aggDishPopularity db s e).map Prod.fst).Nodup := by
    unfold aggDishPopularity
    apply rankTop10_fst_nodup
    rw [keyedPairs_fst]
    exact nodup_dedupList _
  have hincnd : ((aggDishIncome db s e).map Prod.fst).Nodup := by
    unfold aggDishIncome
    apply rankTop10_fst_nodup
    rw [keyedPairs_fst]
    exact nodup_dedupList _
  refine ⟨?_, ?_, ?_, ?_, ?_, ?_, ?_, rfl, by decide, by decide⟩
  · rw [hpopfst]; exact hpopnd
  · rw [hincfst]; exact hincnd
  · rw [dishPopularityRows, List.length_map]
    exact rankTop10_length _
  · rw [dishIncomeRows, List.length_map]
    exact rankTop10_length _
  · exact rankTop10_pairwise _
  · exact rankTop10_pairwise _
  · intro p hp
    obtain ⟨n, hn, rfl⟩ := List.mem_map.1 (rankTop10_subset hp)
    rfl

/-- C3 counterexample: three line items of quantity 1, price_at_time 10.10
sum to the exact Decimal 30.30 in the aggregate, but the emitted series
value, float() of that Decimal, is not equal to 30.30: the series value is a
binary floating approximation, not the exact decimal. -/
theorem C3_counterexample :
    aggDishIncome exampleDB3 ⟨2024, 1, 1⟩ ⟨2024, 1, 31⟩ = [("Pizza", 3030)] ∧
    (dishIncomeRows exampleDB3 ⟨2024, 1, 1⟩ ⟨2024, 1, 31⟩).map
      (fun p => (p.1, p.2.eqFrac 3030 100)) = [("Pizza", false)] := by
  decide

/-- C3 (amended): each dish_income aggregate value is the sum of
quantity * price_at_time over the dish's matching order lines, computed in
exact decimal (integer-cent) arithmetic by the database - three line items of
10.10 each sum to exactly 30.30 there - but the code then applies float() to
each aggregated value, so each emitted series value is the nearest binary
double instead of the exact decimal; the double of 30.30 still formats to
"30.30" at 2 decimal places. -/
theorem C3_dish_income_decimal (db : DB) (s e : Date) :
    (∀ p ∈ aggDishIncome db s e, p.2 = incomeValue db s e p.1) ∧
    dishIncomeRows db s e =
      (aggDishIncome db s e).map (fun p => (p.1, pyFloat p.2 100)) ∧
    incomeValue exampleDB3 ⟨2024, 1, 1⟩ ⟨2024, 1, 31⟩ "Pizza" = 1 * 1010 + (1 * 1010 + (1 * 1010 + 0)) ∧
    aggDishIncome exampleDB3 ⟨2024, 1, 1⟩ ⟨2024, 1, 31⟩ = [("Pizza", 3030)] ∧
    formatComma2 (pyFloat 3030 100) = "30.30" ∧
    (pyFloat 3030 100).eqFrac 3030 100 = false := by
  refine ⟨?_, rfl, by decide, by decide, by decide, by decide⟩
  intro p hp
  obtain ⟨n, hn, rfl⟩ := List.mem_map.1 (rankTop10_subset hp)
  rfl

/-- C4: the date-range filter is inclusive at both ends and excludes
everything outside: an order dated exactly start_date (any time of day,
including 00:00) or exactly end_date (including 23:59:59) passes the filter
and its amount enters the day sum; an order dated outside the range, together
with any order lines belonging to it, changes none of the three series. -/
theorem C4_range_boundaries (db : DB) (s e : Date) (o : Order)
    (ls : List OrderItem) :
    (o.created_at.date = s → Date.leB s e = true → orderInRange s e o = true) ∧
    (o.created_at.date = e → Date.leB s e = true → orderInRange s e o = true) ∧
    (o.created_at.date = s → Date.leB s e = true →
      sumTotalOn (ordersInRange ⟨o :: db.orders, db.orderItems, db.menuItems⟩ s e) s =
        o.total_amount + sumTotalOn (ordersInRange db s e) s) ∧
    ((Date.leB s o.created_at.date = false ∨ Date.leB o.created_at.date e = false) →
      (∀ o2 ∈ db.orders, o2.id ≠ o.id) → (∀ l ∈ ls, l.order_id = o.id) →
      overallIncomeRows ⟨o :: db.orders, ls ++ db.orderItems, db.menuItems⟩ s e =
          overallIncomeRows db s e ∧
        dishPopularityRows ⟨o :: db.orders, ls ++ db.orderItems, db.menuItems⟩ s e =
          dishPopularityRows db s e ∧
        dishIncomeRows ⟨o :: db.orders, ls ++ db.orderItems, db.menuItems⟩ s e =
          dishIncomeRows db s e) := by
  refine ⟨?_, ?_, ?_, ?_⟩
  · intro hd hse
    simp [orderInRange, hd, dateLeB_refl, hse]
  · intro hd hse
    simp [orderInRange, hd, dateLeB_refl, hse]
  · intro hd hse
    have h1 : orderInRange s e o = true := by
      simp [orderInRange, hd, dateLeB_refl, hse]
    have h2 : ordersInRange ⟨o :: db.orders, db.orderItems, db.menuItems⟩ s e =
        o :: ordersInRange db s e := by
      simp [ordersInRange, List.filter_cons, h1]
    rw [h2]
    unfold sumTotalOn
    rw [List.filter_cons]
    simp [hd]
  · intro hout hfresh hls
    have hor : orderInRange s e o = false := by
      rcases hout with h | h <;> simp [orderInRange, h]
    have hords : ordersInRange ⟨o :: db.orders, ls ++ db.orderItems, db.menuItems⟩ s e =
        ordersInRange db s e := by
      simp [ordersInRange, List.filter_cons, hor]
    have hitem : ∀ it : OrderItem,
        itemInRange ⟨o :: db.orders, ls ++ db.orderItems, db.menuItems⟩ s e it =
          itemInRange db s e it := by
      intro it
      show (match (o :: db.orders).find? (fun o2 => o2.id == it.order_id) with
            | some o3 => orderInRange s e o3
            | none => false) =
          (match db.orders.find? (fun o2 => o2.id == it.order_id) with
            | some o3 => orderInRange s e o3
            | none => false)
      by_cases hid : (o.id == it.order_id) = true
      · have hnone : db.orders.find? (fun o2 => o2.id == it.order_id) = none := by
          rw [List.find?_eq_none]
          intro o2 ho2
          have hne := hfresh o2 ho2
          have hoid : o.id = it.order_id := beq_iff_eq.1 hid
          simp only [beq_iff_eq]
          omega
        have hp : (fun (o2 : Order) => o2.id == it.order_id) o = true := hid
        have hstep : List.find? (fun o2 => o2.id == it.order_id) (o :: db.orders) =
            some o := List.find?_cons_of_pos _ hp
        rw [hstep, hnone]
        exact hor
      · have hp : ¬ ((fun (o2 : Order) => o2.id == it.order_id) o = true) := hid
        have hstep : List.find? (fun o2 => o2.id == it.order_id) (o :: db.orders) =
            List.find? (fun o2 => o2.id == it.order_id) db.orders :=
          List.find?_cons_of_neg _ hp
        rw [hstep]
    have hlsnil :
        List.filter (itemInRange ⟨o :: db.orders, ls ++ db.orderItems, db.menuItems⟩ s e) ls = [] := by
      rw [List.filter_eq_nil_iff]
      intro l hl
      have hlid : l.order_id = o.id := hls l hl
      have hfind : (o :: db.orders).find? (fun o2 => o2.id == l.order_id) = some o := by
        have hp : (fun (o2 : Order) => o2.id == l.order_id) o = true := by simp [hlid]
        exact List.find?_cons_of_pos _ hp
      show ¬ ((match (o :: db.orders).find? (fun o2 => o2.id == l.order_id) with
              | some o3 => orderInRange s e o3
              | none => false) = true)
      simp [hfind, hor]
    have hitems : itemsInRange ⟨o :: db.orders, ls ++ db.orderItems, db.menuItems⟩ s e =
        itemsInRange db s e := by
      show List.filter _ (ls ++ db.orderItems) = _
      rw [List.filter_append, hlsnil, List.nil_append]
      exact List.filter_congr fun it _ => hitem it
    have hmenu : menuName ⟨o :: db.orders, ls ++ db.orderItems, db.menuItems⟩ = menuName db := rfl
    refine ⟨?_, ?_, ?_⟩
    · simp only [overallIncomeRows, aggOverallIncome, incomeDays, hords]
    · simp only [dishPopularityRows, aggDishPopularity, dishNames, dishItems,
        popularityValue, hitems, hmenu]
    · simp only [dishIncomeRows, aggDishIncome, dishNames, dishItems,
        incomeValue, hitems, hmenu]

/-- C5: a well-formed request whose range matches no order rows, including
the unvalidated case end_date before start_date, yields an empty Series for
every metric, the pipeline still completes, and the document carries the
header-only data table and an empty chart. -/
theorem C5_empty_series (db : DB) (inp : ReportGenerateInput) (now : DateTime)
    (baseUrl : String) (st : Store) :
    (Date.ltB inp.end_date inp.start_date = true →
      ∀ o ∈ db.orders, orderInRange inp.start_date inp.end_date o = false) ∧
    ((∀ o ∈ db.orders, orderInRange inp.start_date inp.end_date o = false) →
      reportRows db inp = [] ∧
      (generate_report db inp now baseUrl).doc.tableData =
        [[(title_map inp.filter_by).2.1, (title_map inp.filter_by).2.2]] ∧
      (generate_report db inp now baseUrl).doc.chart.labels = [] ∧
      (generate_report db inp now baseUrl).doc.chart.values = [] ∧
      (runPipeline noStageFailures db inp now baseUrl st).1 =
        .ok (generate_report db inp now baseUrl).file_url) := by
  constructor
  · intro hlt o ho
    have hse : ¬ Date.leB inp.start_date inp.end_date = true := (dateLtB_iff _ _).1 hlt
    cases hor : orderInRange inp.start_date inp.end_date o with
    | false => rfl
    | true =>
      exfalso
      have h2 := hor
      unfold orderInRange at h2
      rw [Bool.and_eq_true] at h2
      exact hse (dateLeB_trans h2.1 h2.2)
  · intro hno
    have hord : ordersInRange db inp.start_date inp.end_date = [] := by
      rw [ordersInRange, List.filter_eq_nil_iff]
      intro o ho
      simp [hno o ho]
    have hitems0 : itemsInRange db inp.start_date inp.end_date = [] := by
      rw [itemsInRange, List.filter_eq_nil_iff]
      intro it hit
      unfold itemInRange
      cases hf : db.orders.find? (fun o => o.id == it.order_id) with
      | none => simp
      | some o => simp [hno o (List.mem_of_find?_eq_some hf)]
    have hrows : reportRows db inp = [] := by
      unfold reportRows
      cases hm : inp.filter_by with
      | overall_income =>
        simp [overallIncomeRows, aggOverallIncome, incomeDays, hord, dedupList, sortBy]
      | dish_popularity =>
        simp [dishPopularityRows, aggDishPopularity, dishNames, hitems0,
          dedupList, rankTop10, sortBy]
      | dish_income =>
        simp [dishIncomeRows, aggDishIncome, dishNames, hitems0,
          dedupList, rankTop10, sortBy]
    refine ⟨hrows, ?_, ?_, ?_, rfl⟩
    · show ([(title_map inp.filter_by).2.1, (title_map inp.filter_by).2.2] ::
        (reportRows db inp).map (fun r => [r.1, formatComma2 r.2])) = _
      rw [hrows]
      rfl
    · show (reportRows db inp).map Prod.fst = []
      rw [hrows]
      rfl
    · show (reportRows db inp).map Prod.snd = []
      rw [hrows]
      rfl

/-- C6: the pipeline is all-or-nothing: if aggregation, chart rendering or
document composition raises, the request ends in an error and the Report
table and the file storage are exactly as before - persistence happens only
as the final stage, which on a fully successful run appends exactly one
Report record and one file. -/
theorem C6_atomic_persistence (fail : StageFailures) (db : DB)
    (inp : ReportGenerateInput) (now : DateTime) (baseUrl : String) (st : Store) :
    ((fail.aggregateFails = true ∨ fail.renderFails = true ∨
        fail.composeFails = true) →
      (∃ msg, (runPipeline fail db inp now baseUrl st).1 = .error msg) ∧
      (runPipeline fail db inp now baseUrl st).2 = st) ∧
    (fail = noStageFailures →
      runPipeline fail db inp now baseUrl st =
        (.ok (generate_report db inp now baseUrl).file_url,
         ⟨st.reports ++ [(generate_report db inp now baseUrl).report],
          st.files ++ [((generate_report db inp now baseUrl).report.fileName,
                        (generate_report db inp now baseUrl).doc)]⟩)) := by
  constructor
  · obtain ⟨fa, fr, fc⟩ := fail
    intro h
    cases fa with
    | true => exact ⟨⟨"aggregation raised", rfl⟩, rfl⟩
    | false =>
      cases fr with
      | true => exact ⟨⟨"chart rendering raised", rfl⟩, rfl⟩
      | false =>
        cases fc with
        | true => exact ⟨⟨"document composition raised", rfl⟩, rfl⟩
        | false => simp at h
  · rintro rfl
    rfl

/-- C7: the composed document's data table preserves the Series exactly as
aggregated, with no re-sorting: a metric-specific header row, then exactly
one row per series point in series order, each value formatted with
thousands separators and 2 decimal places, and the value column
right-aligned by the table style. -/
theorem C7_table_preserves_series (db : DB) (inp : ReportGenerateInput)
    (now : DateTime) (baseUrl : String) :
    (generate_report db inp now baseUrl).doc.tableData.head? =
      some [(title_map inp.filter_by).2.1, (title_map inp.filter_by).2.2] ∧
    (generate_report db inp now baseUrl).doc.tableData.length =
      (reportRows db inp).length + 1 ∧
    (∀ i : Nat, (generate_report db inp now baseUrl).doc.tableData[i + 1]? =
      ((reportRows db inp)[i]?).map (fun r => [r.1, formatComma2 r.2])) ∧
    (⟨"ALIGN", (1, 1), (-1, -1), "RIGHT"⟩ : StyleCmd) ∈
      (generate_report db inp now baseUrl).doc.tableStyle ∧
    formatComma2 (pyFloat 123450050 100) = "1,234,500.50" := by
  refine ⟨rfl, ?_, ?_, ?_, by decide⟩
  · show ([(title_map inp.filter_by).2.1, (title_map inp.filter_by).2.2] ::
      (reportRows db inp).map (fun r => [r.1, formatComma2 r.2])).length = _
    rw [List.length_cons, List.length_map]
  · intro i
    show ([(title_map inp.filter_by).2.1, (title_map inp.filter_by).2.2] ::
      (reportRows db inp).map (fun r => [r.1, formatComma2 r.2]))[i + 1]? = _
    rw [List.getElem?_cons_succ, List.getElem?_map]
  · show _ ∈ dataTableStyle
    decide

/-- C8: the raw Series is persisted in the Report's data field alongside the
file; after a successful run, retrieving the stored report and document by
the report's filename locator returns exactly the persisted record, whose
series equals the rows handed to the composer, which in turn are exactly the
table body and chart values - no re-aggregation involved. -/
theorem C8_series_roundtrip (db : DB) (inp : ReportGenerateInput)
    (now : DateTime) (baseUrl : String) (st : Store)
    (hfresh : ∀ rp ∈ st.reports,
      rp.fileName ≠ (generate_report db inp now baseUrl).report.fileName)
    (hfreshf : ∀ f ∈ st.files,
      f.1 ≠ (generate_report db inp now baseUrl).report.fileName) :
    retrieveReport (runPipeline noStageFailures db inp now baseUrl st).2
        (generate_report db inp now baseUrl).report.fileName =
      some (generate_report db inp now baseUrl).report ∧
    retrieveFile (runPipeline noStageFailures db inp now baseUrl st).2
        (generate_report db inp now baseUrl).report.fileName =
      some (generate_report db inp now baseUrl).doc ∧
    (generate_report db inp now baseUrl).report.data = reportRows db inp ∧
    (generate_report db inp now baseUrl).doc.tableData =
      [(title_map inp.filter_by).2.1, (title_map inp.filter_by).2.2] ::
        (generate_report db inp now baseUrl).report.data.map
          (fun p => [p.1, formatComma2 p.2]) ∧
    (generate_report db inp now baseUrl).doc.chart.values =
      (generate_report db inp now baseUrl).report.data.map Prod.snd := by
  refine ⟨?_, ?_, rfl, rfl, rfl⟩
  · show List.find?
      (fun r => r.fileName == (generate_report db inp now baseUrl).report.fileName)
      (st.reports ++ [(generate_report db inp now baseUrl).report]) = _
    rw [find?_append_right]
    · have hp : (fun (r : Report) =>
          r.fileName == (generate_report db inp now baseUrl).report.fileName)
          (generate_report db inp now baseUrl).report = true := by
        simp
      exact List.find?_cons_of_pos _ hp
    · intro rp hrp
      simp [hfresh rp hrp]
  · show (List.find?
      (fun f => f.1 == (generate_report db inp now baseUrl).report.fileName)
      (st.files ++ [((generate_report db inp now baseUrl).report.fileName,
        (generate_report db inp now baseUrl).doc)])).map Prod.snd = _
    rw [find?_append_right]
    · have hp : (fun (f : String × Document) =>
          f.1 == (generate_report db inp now baseUrl).report.fileName)
          ((generate_report db inp now baseUrl).report.fileName,
            (generate_report db inp now baseUrl).doc) = true := by
        simp
      have hstep : List.find?
          (fun f => f.1 == (generate_report db inp now baseUrl).report.fileName)
          [((generate_report db inp now baseUrl).report.fileName,
            (generate_report db inp now baseUrl).doc)] =
          some ((generate_report db inp now baseUrl).report.fileName,
            (generate_report db inp now baseUrl).doc) :=
        List.find?_cons_of_pos _ hp
      rw [hstep]
      rfl
    · intro f hf
      simp [hfreshf f hf]

/-- C9: document composition is deterministic except for the generated_at
timestamp: with identical database, input and base URL, every part of the
document other than the summary's third (Wygenerowano) row is independent of
the injected clock, and with an identical clock the whole result is
identical. -/
theorem C9_deterministic_composition (db : DB) (inp : ReportGenerateInput)
    (now1 now2 : DateTime) (baseUrl : String) :
    (generate_report db inp now1 baseUrl).doc.heading =
      (generate_report db inp now2 baseUrl).doc.heading ∧
    (generate_report db inp now1 baseUrl).doc.tableData =
      (generate_report db inp now2 baseUrl).doc.tableData ∧
    (generate_report db inp now1 baseUrl).doc.tableStyle =
      (generate_report db inp now2 baseUrl).doc.tableStyle ∧
    (generate_report db inp now1 baseUrl).doc.summaryStyle =
      (generate_report db inp now2 baseUrl).doc.summaryStyle ∧
    (generate_report db inp now1 baseUrl).doc.chart =
      (generate_report db inp now2 baseUrl).doc.chart ∧
    (generate_report db inp now1 baseUrl).doc.summaryData =
      [["Okres", formatDate inp.start_date ++ " – " ++ formatDate inp.end_date],
       ["Typ raportu", (title_map inp.filter_by).1],
       ["Wygenerowano", formatDateTimeMin now1]] ∧
    (now1 = now2 →
      generate_report db inp now1 baseUrl = generate_report db inp now2 baseUrl) :=
  ⟨rfl, rfl, rfl, rfl, rfl, rfl, fun h => by rw [h]⟩

/-- C10: aggregation is insensitive to order status: two databases whose
orders agree on everything except status and completed_at (items and menu
identical) produce identical series for every metric and range - still
active orders count exactly like completed ones. -/
theorem C10_status_insensitive (db1 db2 : DB) (inp : ReportGenerateInput)
    (ho : List.Forall₂ SameButStatus db1.orders db2.orders)
    (hi : db1.orderItems = db2.orderItems)
    (hm : db1.menuItems = db2.menuItems) :
    reportRows db1 inp = reportRows db2 inp := by
  have hfil := forall2_filter_range inp.start_date inp.end_date ho
  have hdays : incomeDays db1 inp.start_date inp.end_date =
      incomeDays db2 inp.start_date inp.end_date := by
    unfold incomeDays ordersInRange
    rw [forall2_map_date hfil]
  have hsum : ∀ d, sumTotalOn (ordersInRange db1 inp.start_date inp.end_date) d =
      sumTotalOn (ordersInRange db2 inp.start_date inp.end_date) d :=
    fun d => forall2_sumTotalOn d hfil
  have hagg : aggOverallIncome db1 inp.start_date inp.end_date =
      aggOverallIncome db2 inp.start_date inp.end_date := by
    unfold aggOverallIncome
    rw [hdays]
    exact List.map_congr_left fun d _ => by rw [hsum d]
  have hitem : ∀ it, itemInRange db1 inp.start_date inp.end_date it =
      itemInRange db2 inp.start_date inp.end_date it :=
    fun it => forall2_findRange inp.start_date inp.end_date ho it.order_id
  have hitems : itemsInRange db1 inp.start_date inp.end_date =
      itemsInRange db2 inp.start_date inp.end_date := by
    unfold itemsInRange
    rw [hi]
    exact List.filter_congr fun it _ => hitem it
  have hmenu : menuName db1 = menuName db2 := by
    unfold menuName
    rw [hm]
  unfold reportRows
  cases inp.filter_by with
  | overall_income =>
    simp only [overallIncomeRows, hagg]
  | dish_popularity =>
    simp only [dishPopularityRows, aggDishPopularity, dishNames, dishItems,
      popularityValue, hitems, hmenu]
  | dish_income =>
    simp only [dishIncomeRows, aggDishIncome, dishNames, dishItems,
      incomeValue, hitems, hmenu]

/-! Witnesses: each applies its claim's theorem at concrete inputs. -/

/-- Witness for C1 at the two-order scenario database. -/
theorem C1_witness :
    overallIncomeRows exampleDB125 ⟨2024, 1, 1⟩ ⟨2024, 1, 31⟩ =
      [("2024-01-05", pyFloat 12550 100)] :=
  (C1_overall_income_by_day exampleDB125 ⟨2024, 1, 1⟩ ⟨2024, 1, 31⟩).2.2.2.2.1

/-- Witness for C2 at the twelve-dish scenario database. -/
theorem C2_witness :
    (dishPopularityRows exampleDB12 ⟨2024, 1, 1⟩ ⟨2024, 1, 31⟩).length = 10 :=
  (C2_ranked_metrics_top10 exampleDB12 ⟨2024, 1, 1⟩ ⟨2024, 1, 31⟩).2.2.2.2.2.2.2.2.2

/-- Witness for C3 at the three-line scenario database. -/
theorem C3_witness :
    (pyFloat 3030 100).eqFrac 3030 100 = false :=
  (C3_dish_income_decimal exampleDB3 ⟨2024, 1, 1⟩ ⟨2024, 1, 31⟩).2.2.2.2.2

/-- Witness for C4: an order at start_date 00:00 and one at end_date
23:59:59 pass the filter; prepending an out-of-range order does not change
the overall_income series. -/
theorem C4_witness :
    orderInRange ⟨2024, 1, 1⟩ ⟨2024, 1, 31⟩
      ⟨8, 1, 3, "completed", 100, 20, ⟨⟨2024, 1, 1⟩, 0, 0, 0⟩, none, ""⟩ = true ∧
    orderInRange ⟨2024, 1, 1⟩ ⟨2024, 1, 31⟩
      ⟨9, 1, 3, "completed", 100, 20, ⟨⟨2024, 1, 31⟩, 23, 59, 59⟩, none, ""⟩ = true ∧
    overallIncomeRows ⟨exampleOutOrder :: exampleDB125.orders,
        [] ++ exampleDB125.orderItems, exampleDB125.menuItems⟩
        ⟨2024, 1, 1⟩ ⟨2024, 1, 31⟩ =
      overallIncomeRows exampleDB125 ⟨2024, 1, 1⟩ ⟨2024, 1, 31⟩ :=
  ⟨(C4_range_boundaries exampleDB125 ⟨2024, 1, 1⟩ ⟨2024, 1, 31⟩
      ⟨8, 1, 3, "completed", 100, 20, ⟨⟨2024, 1, 1⟩, 0, 0, 0⟩, none, ""⟩ []).1
      rfl (by decide),
   (C4_range_boundaries exampleDB125 ⟨2024, 1, 1⟩ ⟨2024, 1, 31⟩
      ⟨9, 1, 3, "completed", 100, 20, ⟨⟨2024, 1, 31⟩, 23, 59, 59⟩, none, ""⟩ []).2.1
      rfl (by decide),
   ((C4_range_boundaries exampleDB125 ⟨2024, 1, 1⟩ ⟨2024, 1, 31⟩
      exampleOutOrder []).2.2.2 (Or.inl (by decide)) (by decide) (by decide)).1⟩

/-- Witness for C5 at a reversed range (start_date after end_date). -/
theorem C5_witness :
    reportRows exampleDB125 ⟨⟨2024, 2, 1⟩, ⟨2024, 1, 1⟩, .overall_income⟩ = [] := by
  have h := C5_empty_series exampleDB125
    ⟨⟨2024, 2, 1⟩, ⟨2024, 1, 1⟩, .overall_income⟩ exampleNow "http://testserver" ⟨[], []⟩
  exact (h.2 (h.1 (by decide))).1

/-- Witness for C6: an aggregation failure leaves the empty store empty. -/
theorem C6_witness :
    (runPipeline ⟨true, false, false⟩ exampleDB125 (exampleInput .overall_income)
      exampleNow "http://testserver" ⟨[], []⟩).2 = (⟨[], []⟩ : Store) :=
  ((C6_atomic_persistence ⟨true, false, false⟩ exampleDB125
    (exampleInput .overall_income) exampleNow "http://testserver" ⟨[], []⟩).1
    (Or.inl rfl)).2

/-- Witness for C7 at the scenario database. -/
theorem C7_witness :
    (generate_report exampleDB125 (exampleInput .overall_income) exampleNow
      "http://testserver").doc.tableData.head? =
      some ["Data", "Przychód [PLN]"] :=
  (C7_table_preserves_series exampleDB125 (exampleInput .overall_income)
    exampleNow "http://testserver").1

/-- Witness for C8 from an empty store. -/
theorem C8_witness :
    retrieveReport (runPipeline noStageFailures exampleDB125
        (exampleInput .overall_income) exampleNow "http://testserver" ⟨[], []⟩).2
      (generate_report exampleDB125 (exampleInput .overall_income) exampleNow
        "http://testserver").report.fileName =
      some (generate_report exampleDB125 (exampleInput .overall_income)
        exampleNow "http://testserver").report :=
  (C8_series_roundtrip exampleDB125 (exampleInput .overall_income) exampleNow
    "http://testserver" ⟨[], []⟩ (by simp) (by simp)).1

/-- Witness for C9 at two distinct clock values. -/
theorem C9_witness :
    (generate_report exampleDB125 (exampleInput .overall_income) exampleNow
      "http://testserver").doc.tableData =
    (generate_report exampleDB125 (exampleInput .overall_income) exampleNow2
      "http://testserver").doc.tableData :=
  (C9_deterministic_composition exampleDB125 (exampleInput .overall_income)
    exampleNow exampleNow2 "http://testserver").2.1

/-- Witness for C10: the scenario database with its orders set to pending or
cancelled (and completed_at changed) yields the same series. -/
theorem C10_witness :
    reportRows exampleDB125 (exampleInput .overall_income) =
      reportRows exampleDB125pending (exampleInput .overall_income) :=
  C10_status_insensitive exampleDB125 exampleDB125pending
    (exampleInput .overall_income)
    (List.Forall₂.cons ⟨rfl, rfl, rfl, rfl, rfl, rfl, rfl⟩
      (List.Forall₂.cons ⟨rfl, rfl, rfl, rfl, rfl, rfl, rfl⟩ List.Forall₂.nil))
    rfl rfl

end TabBackend
